import Mathlib

/-!
Shallow embedding of the web-lattice SDK (src/web-lattice/src/sdk/config.ts,
metrics.ts, encryption.ts, WebLattice.ts).  External collaborators — the JSON
serializer/parser of the host runtime and the AES primitive of crypto-js — are
black boxes per the specification and appear as an explicit `Prims` record of
functions; everything else is translated from the TypeScript source.
JavaScript truthiness on the values the code actually tests (strings, numbers,
booleans, optional objects) is modelled explicitly where the source relies on
it (for example `!globalConfig.encryption?.secretKey` treats the empty string
as falsy).
-/

namespace WebLatticeModel

/-- Deployment tier, from src/sdk/types.ts. -/
inductive Environment
  | DEV
  | UAT
  | PROD
  deriving DecidableEq, Repr

/-- JSON values, the payloads handled by the SDK. -/
inductive Json
  | null
  | bool (b : Bool)
  | num (n : Int)
  | str (s : String)
  | arr (elems : List Json)
  | obj (fields : List (String × Json))

/-- The `encryption` sub-object of NetworkConfig (config.ts lines 8–12). -/
structure EncryptionConfig where
  enabled : Bool
  secretKey : Option String := none
  useRemoteKeys : Option Bool := none
  deriving DecidableEq, Repr

/-- The `metrics` sub-object of NetworkConfig (config.ts lines 13–16). -/
structure MetricsConfig where
  enabled : Bool
  logToConsole : Option Bool := none
  deriving DecidableEq, Repr

/-- The `graphql` sub-object of NetworkConfig (config.ts lines 17–19). -/
structure GraphqlConfig where
  endpoint : Option String := none
  deriving DecidableEq, Repr

/-- NetworkConfig (config.ts lines 3–20).  Optional fields are `Option`;
`none` models the key being absent/undefined. -/
structure NetworkConfig where
  baseUrl : String
  timeout : Option Nat := none
  headers : Option (List (String × String)) := none
  environment : Option Environment := none
  encryption : Option EncryptionConfig := none
  metrics : Option MetricsConfig := none
  graphql : Option GraphqlConfig := none
  deriving DecidableEq, Repr

/-- An argument of type `Partial<NetworkConfig>`: each top-level key is either
present with a value (`some`) or absent (`none`). -/
structure ConfigUpdate where
  baseUrl : Option String := none
  timeout : Option Nat := none
  headers : Option (List (String × String)) := none
  environment : Option Environment := none
  encryption : Option EncryptionConfig := none
  metrics : Option MetricsConfig := none
  graphql : Option GraphqlConfig := none
  deriving DecidableEq, Repr

/-- The initial module-level `globalConfig` (config.ts lines 22–33). -/
def initialGlobalConfig : NetworkConfig where
  baseUrl := ""
  timeout := some 10000
  environment := some Environment.DEV
  encryption := some { enabled := false }
  metrics := some { enabled := true, logToConsole := some true }

/-- `setNetworkConfig` (config.ts lines 35–40): the JavaScript object spread
`{...globalConfig, ...config}` — every top-level key present in the update
replaces the corresponding key of the current config; absent keys keep the
current value. -/
def setNetworkConfig (c : ConfigUpdate) (g : NetworkConfig) : NetworkConfig where
  baseUrl := c.baseUrl.getD g.baseUrl
  timeout := match c.timeout with | some t => some t | none => g.timeout
  headers := match c.headers with | some h => some h | none => g.headers
  environment := match c.environment with | some e => some e | none => g.environment
  encryption := match c.encryption with | some e => some e | none => g.encryption
  metrics := match c.metrics with | some m => some m | none => g.metrics
  graphql := match c.graphql with | some q => some q | none => g.graphql

/-- Truthiness of `globalConfig.encryption?.enabled`. -/
def encEnabled (g : NetworkConfig) : Bool :=
  match g.encryption with
  | some e => e.enabled
  | none => false

/-- The configured secret key, with both an absent key and an absent
`encryption` object rendered as the empty string (which JavaScript treats as
falsy in `!globalConfig.encryption?.secretKey`). -/
def encSecretKey (g : NetworkConfig) : String :=
  match g.encryption with
  | some e => e.secretKey.getD ""
  | none => ""

/-- `isProd` (WebLattice.ts lines 30–32):
`config.environment === PROD && config.encryption?.enabled`. -/
def isProd (c : NetworkConfig) : Bool :=
  (c.environment == some Environment.PROD) && encEnabled c

/-- The black-box external primitives: the JSON serializer and parser of the
host runtime and the AES cipher of crypto-js (spec section 1 treats both as
black boxes outside the core). -/
structure Prims where
  jsonStringify : Json → String
  jsonParse : String → Option Json
  aesEncrypt : String → String → String
  aesDecrypt : String → String → String

/-- `encryptData` (encryption.ts, config.ts part lines 81–94): pass-through
`JSON.stringify(data)` when `!globalConfig.encryption?.enabled ||
!globalConfig.encryption?.secretKey`, else AES-encrypt the JSON string with
the configured secret key.  Note that the environment is never consulted
here. -/
def encryptData (prims : Prims) (g : NetworkConfig) (data : Json) : String :=
  if !(encEnabled g) || encSecretKey g == "" then
    prims.jsonStringify data
  else
    prims.aesEncrypt (prims.jsonStringify data) (encSecretKey g)

/-- `decryptData` (encryption.ts lines 96–109): pass-through under the same
guard as `encryptData`, else AES-decrypt with the configured secret key. -/
def decryptData (prims : Prims) (g : NetworkConfig) (encryptedData : String) : String :=
  if !(encEnabled g) || encSecretKey g == "" then
    encryptedData
  else
    prims.aesDecrypt encryptedData (encSecretKey g)

/-- The record handed to `recordMetrics` (metrics.ts lines 49–61). -/
structure MetricData where
  url : String
  method : String
  startTime : Nat
  endTime : Nat
  duration : Int
  status : Option Nat := none
  success : Bool
  encrypted : Option Bool := none
  graphql : Option Bool := none
  requestSize : Option Nat := none
  responseSize : Option Nat := none
  deriving DecidableEq, Repr

/-- The metric object built by `recordMetrics`: the input data plus the
`timestamp` stamped at record time. -/
structure MetricRecord where
  data : MetricData
  timestamp : String
  deriving DecidableEq, Repr

/-- Truthiness of `globalConfig.metrics?.enabled`. -/
def metricsEnabled (g : NetworkConfig) : Bool :=
  match g.metrics with
  | some m => m.enabled
  | none => false

/-- Truthiness of `globalConfig.metrics.logToConsole`. -/
def metricsLogToConsole (g : NetworkConfig) : Bool :=
  match g.metrics with
  | some m => m.logToConsole.getD false
  | none => false

/-- What one invocation of `recordMetrics` does: `recorded` is the metric
object it builds (none when the enabled guard makes it return early), and
`consoleLogged` tells whether that object was written to the console sink. -/
structure MetricsEffect where
  recorded : Option MetricRecord
  consoleLogged : Bool
  deriving DecidableEq, Repr

/-- `recordMetrics` (metrics.ts lines 63–77): early return when
`!globalConfig.metrics?.enabled`; otherwise build the metric with a fresh
timestamp and, when `logToConsole` is set, emit it to the console sink. -/
def recordMetrics (g : NetworkConfig) (ts : String) (data : MetricData) : MetricsEffect :=
  if !(metricsEnabled g) then
    { recorded := none, consoleLogged := false }
  else
    { recorded := some { data := data, timestamp := ts }
      consoleLogged := metricsLogToConsole g }

/-- A JavaScript value sitting in `config.data` / `response.data`: a string,
a (parsed) JSON object, or nothing at all (undefined/null). -/
inductive Body
  | str (s : String)
  | obj (j : Json)
  | empty

/-- JavaScript truthiness of a body value: the empty string, undefined and
null are falsy; every object is truthy. -/
def Body.truthy : Body → Bool
  | .str s => s != ""
  | .obj _ => true
  | .empty => false

/-- `response.data || ` an empty object — the argument the pipeline passes to
`JSON.stringify` when computing request/response sizes. -/
def Body.orEmptyObj : Body → Json
  | .str s => Json.str s
  | .obj j => j
  | .empty => Json.obj []

/-- A completed HTTP response as the interceptors see it. -/
structure HttpResponse where
  status : Nat
  data : Body
  headers : List (String × String) := []

/-- An axios error: its message, the HTTP response when one was received
(absent for transport errors), and whether `error.config` is present (it is
for every error produced by a dispatched request). -/
structure HttpFailure where
  message : String
  response : Option HttpResponse := none
  hasConfig : Bool := true

/-- What the transport produced for one call. -/
inductive TransportResult
  | ok (resp : HttpResponse)
  | err (e : HttpFailure)

/-- The uniform result envelope (types.ts ApiResponse). -/
structure ApiResponse where
  success : Bool
  data : Option Body := none
  error : Option String := none
  statusCode : Option Nat := none
  errorCode : Option String := none
  headers : Option (List (String × String)) := none

/-- Per-call inputs: the verb arguments plus the clock readings the
interceptors take (`Date.now()` at request and response time) and the
timestamp string `recordMetrics` would stamp. -/
structure CallInput where
  url : String
  method : String
  isGraphQL : Bool
  data : Body
  startTime : Nat
  endTime : Nat
  timestamp : String

/-- Everything observable about one call: the metric records built by
`recordMetrics`, how many were written to the console sink, the redirect
navigations triggered, the envelope returned to the caller, and (for failed
calls) the value left in `error.response.data` after the error interceptor
ran. -/
structure CallOutcome where
  metricsRecorded : List MetricRecord
  consoleLogs : Nat
  redirects : List String
  envelope : ApiResponse
  errorBodyAfter : Option Body := none

/-- The failure envelope built by the catch block of every verb method
(WebLattice.ts lines 313–320 and its clones): message with a default for a
falsy one, `error.response?.status || 500` (a missing or zero status yields
500), and an error code from the same falsy-guarded status. -/
def catchEnvelope (message : String) (status : Option Nat) : ApiResponse where
  success := false
  error := some (if message != "" then message else "An unknown error occurred")
  statusCode := some (match status with
    | some s => if s != 0 then s else 500
    | none => 500)
  errorCode := some (match status with
    | some s => if s != 0 then "ERR_" ++ toString s else "ERR_UNKNOWN"
    | none => "ERR_UNKNOWN")

/-- JavaScript subtraction of the two clock readings. -/
def jsSub (a b : Nat) : Int := (a : Int) - (b : Int)

/-- The effect of the request interceptor on the outgoing body
(`handleProductionSecurity`, WebLattice.ts lines 56–65): under
`isProd(this.config)` an object body is replaced by `encryptData(body)`;
other bodies pass unchanged.  `encryptData` reads the module-level
`globalConfig`, hence the separate `gcfg` argument. -/
def buildData (prims : Prims) (icfg gcfg : NetworkConfig) (b : Body) : Body :=
  if isProd icfg then
    match b with
    | .obj j => .str (encryptData prims gcfg j)
    | _ => b
  else b

/-- The decryption stage of the response-success interceptor (WebLattice.ts
lines 186–201).  Under `isProd(this.config)`, when a key pair was stored for
this request (which happens exactly when `isProd` held at request time) and
the body is a truthy string, the body is decrypted and JSON-parsed; a parse
failure rejects the promise BEFORE `recordMetrics` runs, and the rejection
falls through to the catch block of the verb (the error handler of the same
interceptor does not see it). -/
def successDecryptStep (prims : Prims) (icfg gcfg : NetworkConfig)
    (resp : HttpResponse) : Except String Body :=
  let keysStored := isProd icfg
  if isProd icfg && keysStored then
    match resp.data with
    | .str s =>
      if s != "" then
        match prims.jsonParse (decryptData prims gcfg s) with
        | some j => .ok (.obj j)
        | none => .error "Unexpected token in JSON"
      else .ok resp.data
    | _ => .ok resp.data
  else .ok resp.data

/-- The rest of the response-success interceptor and the success return of the verb
method (see `successDecryptStep` for the decryption stage that precedes it). -/
def successOutcome (prims : Prims) (icfg gcfg : NetworkConfig) (inp : CallInput)
    (resp : HttpResponse) : CallOutcome :=
  let sentData := buildData prims icfg gcfg inp.data
  let endTime := inp.endTime
  let startTime := if inp.startTime != 0 then inp.startTime else endTime
  match successDecryptStep prims icfg gcfg resp with
  | .error msg =>
    { metricsRecorded := []
      consoleLogs := 0
      redirects := []
      envelope := catchEnvelope msg none }
  | .ok finalData =>
    let md : MetricData :=
      { url := inp.url
        method := inp.method
        startTime := startTime
        endTime := endTime
        duration := jsSub endTime startTime
        status := some resp.status
        success := true
        encrypted := some (isProd icfg)
        graphql := some inp.isGraphQL
        requestSize := some (prims.jsonStringify sentData.orEmptyObj).length
        responseSize := some (prims.jsonStringify finalData.orEmptyObj).length }
    let eff := recordMetrics gcfg inp.timestamp md
    { metricsRecorded := eff.recorded.toList
      consoleLogs := if eff.consoleLogged then 1 else 0
      redirects := []
      envelope :=
        { success := true
          data := some finalData
          statusCode := some resp.status
          headers := some resp.headers } }

/-- The response-error interceptor (WebLattice.ts lines 223–274) followed by
the catch block of the verb method.  A decrypt/parse failure here is only logged
(the inner catch), leaving `error.response.data` unchanged; metrics, the
redirect side effects and the failure envelope all still happen. -/
def errorOutcome (prims : Prims) (icfg gcfg : NetworkConfig) (inp : CallInput)
    (e : HttpFailure) : CallOutcome :=
  let keysStored := isProd icfg
  let endTime := inp.endTime
  let startTime := if e.hasConfig && inp.startTime != 0 then inp.startTime else endTime
  let isGraphQL := e.hasConfig && inp.isGraphQL
  let url := if e.hasConfig then inp.url else ""
  let method := if e.hasConfig then inp.method else "UNKNOWN"
  let dataAfter : Option Body :=
    match e.response with
    | none => none
    | some r =>
      if isProd icfg && r.data.truthy && e.hasConfig && keysStored then
        match r.data with
        | .str s =>
          match prims.jsonParse (decryptData prims gcfg s) with
          | some j => some (.obj j)
          | none => some r.data
        | _ => some r.data
      else some r.data
  let md : MetricData :=
    { url := url
      method := method
      startTime := startTime
      endTime := endTime
      duration := jsSub endTime startTime
      status := e.response.map (·.status)
      success := false
      encrypted := some (isProd icfg)
      graphql := some isGraphQL }
  let eff := recordMetrics gcfg inp.timestamp md
  let redirects : List String :=
    match e.response with
    | some r =>
      if r.status == 401 then ["/enter-email"]
      else if r.status != 0 && 500 ≤ r.status && r.status < 600 then ["/generic-error"]
      else []
    | none => []
  { metricsRecorded := eff.recorded.toList
    consoleLogs := if eff.consoleLogged then 1 else 0
    redirects := redirects
    envelope := catchEnvelope e.message (e.response.map (·.status))
    errorBodyAfter := dataAfter }

/-- One call through a verb method: the request interceptor, the transport
outcome, the matching response interceptor, and the return/catch of the verb. -/
def runCall (prims : Prims) (icfg gcfg : NetworkConfig) (inp : CallInput)
    (tr : TransportResult) : CallOutcome :=
  match tr with
  | .ok resp => successOutcome prims icfg gcfg inp resp
  | .err e => errorOutcome prims icfg gcfg inp e

/-- Whether this transport result is a success response whose decrypted body
fails JSON parsing in the success interceptor (the case that rejects before
`recordMetrics`). -/
def successParseFails (prims : Prims) (icfg gcfg : NetworkConfig)
    (tr : TransportResult) : Bool :=
  match tr with
  | .ok resp =>
    isProd icfg &&
      (match resp.data with
       | .str s => s != "" && (prims.jsonParse (decryptData prims gcfg s)).isNone
       | _ => false)
  | .err _ => false

/-- Endpoint resolution in `WebLattice.graphql` (WebLattice.ts line 460):
`config.baseUrl || globalConfig.graphql?.endpoint || ""` — each link of the
chain is skipped when falsy (absent or the empty string). -/
def resolveGraphqlEndpoint (callBaseUrl : Option String) (g : NetworkConfig) : String :=
  let a := callBaseUrl.getD ""
  if a != "" then a else (g.graphql.bind (·.endpoint)).getD ""

/-- `response.data.data` (WebLattice.ts line 483): reading the `data` property
of the response body.  On a JSON object it is the field lookup (undefined when
missing); on a string or any other defined value it is undefined; on
undefined/null the property access throws a TypeError. -/
def graphqlUnwrap : Body → Except String Body
  | .obj (Json.obj fs) =>
    .ok (match fs.lookup "data" with
         | some j => .obj j
         | none => .empty)
  | .obj _ => .ok .empty
  | .str _ => .ok .empty
  | .empty => .error "Cannot read properties of undefined"

/-- The outcome of a `graphql` call, plus whether the transport was actually
invoked. -/
structure GraphqlOutcome where
  outcome : CallOutcome
  transportAttempted : Bool

/-- `WebLattice.graphql` (WebLattice.ts lines 454–495): resolve the endpoint;
when none is configured, throw synchronously — the throw is caught by the
own catch block of the method and becomes a failure envelope, and no transport call
happens.  Otherwise POST `{query, variables}` through the pipeline with the
isGraphQL flag set and unwrap `response.data.data` on success. -/
def graphqlCall (prims : Prims) (icfg gcfg : NetworkConfig)
    (callBaseUrl : Option String) (inp : CallInput)
    (tr : TransportResult) : GraphqlOutcome :=
  let endpoint := resolveGraphqlEndpoint callBaseUrl gcfg
  if endpoint == "" then
    { outcome :=
        { metricsRecorded := []
          consoleLogs := 0
          redirects := []
          envelope := catchEnvelope "GraphQL endpoint is not configured" none }
      transportAttempted := false }
  else
    let o := runCall prims icfg gcfg { inp with isGraphQL := true } tr
    if o.envelope.success then
      match graphqlUnwrap (o.envelope.data.getD .empty) with
      | .ok d =>
        { outcome := { o with envelope := { o.envelope with data := some d } }
          transportAttempted := true }
      | .error m =>
        { outcome := { o with envelope := catchEnvelope m none }
          transportAttempted := true }
    else
      { outcome := o, transportAttempted := true }

/-- A JavaScript value interpolated into a template literal. -/
inductive JsVal
  | str (s : String)
  | num (n : Int)
  | bool (b : Bool)
  | null
  | undefinedVal
  deriving DecidableEq, Repr

/-- String coercion of a JsVal, as the JavaScript `+` operator performs it. -/
def JsVal.toStr : JsVal → String
  | .str s => s
  | .num n => toString n
  | .bool true => "true"
  | .bool false => "false"
  | .null => "null"
  | .undefinedVal => "undefined"

/-- JavaScript truthiness of a JsVal. -/
def JsVal.truthy : JsVal → Bool
  | .str s => s != ""
  | .num n => n != 0
  | .bool b => b
  | .null => false
  | .undefinedVal => false

/-- `values[i]`: out-of-range array indexing yields undefined. -/
def valueAt (values : List JsVal) (i : Nat) : JsVal :=
  (values[i]?).getD .undefinedVal

/-- `v || ""` followed by string coercion: a truthy value contributes its
string rendering, a falsy one contributes the empty string. -/
def jsOrEmptyStr (v : JsVal) : String :=
  if v.truthy then v.toStr else ""

/-- The iterations of `strings.reduce((result, str, i) => result + str +
(values[i] || ""), "")`: index-carrying left fold over the fragments. -/
def gqlGo (values : List JsVal) : Nat → String → List String → String
  | _, result, [] => result
  | i, result, s :: rest =>
    gqlGo values (i + 1) (result ++ s ++ jsOrEmptyStr (valueAt values i)) rest

/-- `gql` (WebLattice.ts lines 499–503). -/
def gql (strings : List String) (values : List JsVal) : String :=
  gqlGo values 0 "" strings

/-- Plain interleaving of fragments and the string renderings of the
interpolated values, in order — the concatenation the claim describes.  The
fragment list of a tagged template always has one more element than the value
list; extra fragments are appended as is. -/
def gqlInterleaved : List String → List JsVal → String
  | [], _ => ""
  | s :: rest, [] => s ++ gqlInterleaved rest []
  | s :: rest, v :: vs => s ++ v.toStr ++ gqlInterleaved rest vs

/-- Like `gqlInterleaved`, but a falsy value (false, 0, empty string, null,
undefined) contributes the empty string instead of its rendering — the effect
of the `|| ""` in the source. -/
def gqlFalsyDropped : List String → List JsVal → String
  | [], _ => ""
  | s :: rest, [] => s ++ gqlFalsyDropped rest []
  | s :: rest, v :: vs => s ++ jsOrEmptyStr v ++ gqlFalsyDropped rest vs

/-- Concrete stand-in primitives for evaluating the model on closed inputs:
the serializer and parser agree with the runtime ones on the inputs the
witnesses evaluate them on (the payload `null` serializes to "null"; the
string "garbage" is not valid JSON), and the cipher is the identity, which
satisfies the black-box round-trip law. -/
def stubPrims : Prims where
  jsonStringify := fun _ => "null"
  jsonParse := fun s => if s == "null" then some Json.null else none
  aesEncrypt := fun x _ => x
  aesDecrypt := fun x _ => x

/-- Stand-in primitives with a cipher that visibly changes its input, as real
AES does: ciphertext is never equal to the plaintext it came from. -/
def cipherPrims : Prims where
  jsonStringify := fun _ => "null"
  jsonParse := fun s => if s == "null" then some Json.null else none
  aesEncrypt := fun x _ => "AES(" ++ x ++ ")"
  aesDecrypt := fun y _ => (y.drop 4).dropRight 1

/-- A configuration with encryption enabled and keyed but environment DEV. -/
def devEncryptedConfig : NetworkConfig where
  baseUrl := ""
  environment := some Environment.DEV
  encryption := some { enabled := true, secretKey := some "k" }

/-- A PROD configuration with encryption enabled and keyed, and metrics on. -/
def prodEncryptedConfig : NetworkConfig where
  baseUrl := ""
  environment := some Environment.PROD
  encryption := some { enabled := true, secretKey := some "k" }
  metrics := some { enabled := true, logToConsole := some true }

/-- An update touching only the encryption sub-object. -/
def updEncryptionOnly : ConfigUpdate where
  encryption := some { enabled := true, secretKey := some "s2" }

/-- The configuration client A passes to the constructor. -/
def clientAUpdate : ConfigUpdate where
  baseUrl := some "https://a.example"
  encryption := some { enabled := true, secretKey := some "keyA" }
  metrics := some { enabled := true, logToConsole := some true }

/-- The configuration client B passes to the constructor afterwards. -/
def clientBUpdate : ConfigUpdate where
  baseUrl := some "https://b.example"
  encryption := some { enabled := false }
  metrics := some { enabled := false }

/-- A call input used to evaluate the pipeline on concrete runs. -/
def sampleCall : CallInput where
  url := "/users"
  method := "GET"
  isGraphQL := false
  data := Body.empty
  startTime := 1000
  endTime := 1250
  timestamp := "2026-01-01T00:00:00.000Z"

/-- A success response whose body string does not decrypt/parse to valid
JSON ("garbage" is not valid JSON, under the real parser as under the
stand-in). -/
def garbageOkResponse : HttpResponse where
  status := 200
  data := Body.str "garbage"

/-- A 500 error whose response body string does not decrypt/parse to valid
JSON. -/
def garbageServerError : HttpFailure where
  message := "Request failed with status code 500"
  response := some { status := 500, data := Body.str "garbage" }

/-- C1 counterexample: the claim says that environment ≠ PROD alone forces
`encryptData` to pass through, but `encryptData` never reads the environment —
with encryption enabled and a secret key configured it encrypts even under
DEV, so its output differs from `JSON.stringify(P)`. -/
theorem encryptData_not_env_gated :
    devEncryptedConfig.environment ≠ some Environment.PROD ∧
    encryptData cipherPrims devEncryptedConfig Json.null ≠
      cipherPrims.jsonStringify Json.null := by
  constructor
  · decide
  · decide

/-- C1 (amended): for every payload P, whenever encryption is disabled or no
non-empty secret key is configured, `encryptData(P)` returns exactly
`JSON.stringify(P)`.  The environment plays no role inside `encryptData`; the
PROD gate lives in the request pipeline, which simply does not call
`encryptData` outside PROD. -/
theorem encryptData_passthrough (prims : Prims) (g : NetworkConfig) (P : Json)
    (h : encEnabled g = false ∨ encSecretKey g = "") :
    encryptData prims g P = prims.jsonStringify P := by
  unfold encryptData
  rcases h with h | h <;> simp [h]

/-- C1 witness: the initial global configuration has encryption disabled, and
`encryptData` on the null payload is the serialized payload. -/
theorem encryptData_passthrough_witness :
    (encEnabled initialGlobalConfig = false ∨ encSecretKey initialGlobalConfig = "") ∧
    encryptData stubPrims initialGlobalConfig Json.null =
      stubPrims.jsonStringify Json.null :=
  ⟨Or.inl rfl,
   encryptData_passthrough stubPrims initialGlobalConfig Json.null (Or.inl rfl)⟩

/-- C4: with encryption enabled, a non-empty secret key K, environment PROD,
and an AES primitive satisfying the round-trip law at K, decrypting an
encrypted payload yields its JSON serialization. -/
theorem decrypt_encrypt_roundtrip (prims : Prims) (g : NetworkConfig)
    (e : EncryptionConfig) (K : String) (P : Json)
    (hg : g.encryption = some e) (hen : e.enabled = true)
    (hk : e.secretKey = some K) (hK : K ≠ "")
    (_henv : g.environment = some Environment.PROD)
    (haes : ∀ x, prims.aesDecrypt (prims.aesEncrypt x K) K = x) :
    decryptData prims g (encryptData prims g P) = prims.jsonStringify P := by
  have h1 : encEnabled g = true := by simp [encEnabled, hg, hen]
  have h2 : encSecretKey g = K := by simp [encSecretKey, hg, hk]
  have h3 : (K == "") = false := beq_eq_false_iff_ne.mpr hK
  unfold encryptData decryptData
  rw [h1, h2, h3]
  simp only [Bool.not_true, Bool.false_or, if_false]
  exact haes _

/-- C4 witness: the round-trip evaluated on the PROD configuration with key
"k" and the null payload. -/
theorem decrypt_encrypt_roundtrip_witness :
    decryptData stubPrims prodEncryptedConfig
        (encryptData stubPrims prodEncryptedConfig Json.null) =
      stubPrims.jsonStringify Json.null :=
  decrypt_encrypt_roundtrip stubPrims prodEncryptedConfig
    { enabled := true, secretKey := some "k" } "k" Json.null
    rfl rfl rfl (by decide) rfl (fun _ => rfl)

/-- C8: `setNetworkConfig` is a shallow merge — every top-level key present in
the update fully replaces the corresponding key of the current configuration
(sub-objects such as `encryption` are replaced whole), and every key absent
from the update keeps its current value. -/
theorem setNetworkConfig_shallow_merge (g : NetworkConfig) (u : ConfigUpdate) :
    ((∀ v, u.baseUrl = some v → (setNetworkConfig u g).baseUrl = v) ∧
      (u.baseUrl = none → (setNetworkConfig u g).baseUrl = g.baseUrl)) ∧
    ((∀ v, u.timeout = some v → (setNetworkConfig u g).timeout = some v) ∧
      (u.timeout = none → (setNetworkConfig u g).timeout = g.timeout)) ∧
    ((∀ v, u.headers = some v → (setNetworkConfig u g).headers = some v) ∧
      (u.headers = none → (setNetworkConfig u g).headers = g.headers)) ∧
    ((∀ v, u.environment = some v → (setNetworkConfig u g).environment = some v) ∧
      (u.environment = none → (setNetworkConfig u g).environment = g.environment)) ∧
    ((∀ v, u.encryption = some v → (setNetworkConfig u g).encryption = some v) ∧
      (u.encryption = none → (setNetworkConfig u g).encryption = g.encryption)) ∧
    ((∀ v, u.metrics = some v → (setNetworkConfig u g).metrics = some v) ∧
      (u.metrics = none → (setNetworkConfig u g).metrics = g.metrics)) ∧
    ((∀ v, u.graphql = some v → (setNetworkConfig u g).graphql = some v) ∧
      (u.graphql = none → (setNetworkConfig u g).graphql = g.graphql)) := by
  refine ⟨⟨?_, ?_⟩, ⟨?_, ?_⟩, ⟨?_, ?_⟩, ⟨?_, ?_⟩, ⟨?_, ?_⟩, ⟨?_, ?_⟩, ⟨?_, ?_⟩⟩ <;>
    first
      | (intro v h; simp [setNetworkConfig, h])
      | (intro h; simp [setNetworkConfig, h])

/-- C8 witness: updating only `encryption` replaces that sub-object whole and
leaves `metrics` (and `baseUrl`) untouched. -/
theorem setNetworkConfig_shallow_merge_witness :
    (setNetworkConfig updEncryptionOnly initialGlobalConfig).encryption =
      some { enabled := true, secretKey := some "s2" } ∧
    (setNetworkConfig updEncryptionOnly initialGlobalConfig).metrics =
      initialGlobalConfig.metrics ∧
    (setNetworkConfig updEncryptionOnly initialGlobalConfig).baseUrl =
      initialGlobalConfig.baseUrl :=
  ⟨(setNetworkConfig_shallow_merge initialGlobalConfig updEncryptionOnly).2.2.2.2.1.1 _ rfl,
   (setNetworkConfig_shallow_merge initialGlobalConfig updEncryptionOnly).2.2.2.2.2.1.2 rfl,
   (setNetworkConfig_shallow_merge initialGlobalConfig updEncryptionOnly).1.2 rfl⟩

/-- `encryptData` reads only the `encryption` part of the configuration. -/
theorem encryptData_congr (prims : Prims) {g1 g2 : NetworkConfig}
    (h : g1.encryption = g2.encryption) (P : Json) :
    encryptData prims g1 P = encryptData prims g2 P := by
  simp only [encryptData, encEnabled, encSecretKey, h]

/-- `decryptData` reads only the `encryption` part of the configuration. -/
theorem decryptData_congr (prims : Prims) {g1 g2 : NetworkConfig}
    (h : g1.encryption = g2.encryption) (s : String) :
    decryptData prims g1 s = decryptData prims g2 s := by
  simp only [decryptData, encEnabled, encSecretKey, h]

/-- `recordMetrics` reads only the `metrics` part of the configuration. -/
theorem recordMetrics_congr {g1 g2 : NetworkConfig}
    (h : g1.metrics = g2.metrics) (ts : String) (md : MetricData) :
    recordMetrics g1 ts md = recordMetrics g2 ts md := by
  simp only [recordMetrics, metricsEnabled, metricsLogToConsole, h]

/-- C10: the WebLattice constructor calls `setNetworkConfig(config)`, so
constructing clients A then B leaves the process-wide singleton shallow-merged
with the configuration of B last; for every top-level key B supplies (here
`encryption` and `metrics`), the module-level helpers `encryptData`,
`decryptData` and `recordMetrics` — which read the singleton, not the calling
instance — behave exactly as if only B had been constructed, regardless of
what A configured. -/
theorem constructor_mutates_global_singleton (prims : Prims) (g : NetworkConfig)
    (cA cB : ConfigUpdate) (eB : EncryptionConfig) (mB : MetricsConfig)
    (hB : cB.encryption = some eB) (hm : cB.metrics = some mB) :
    (setNetworkConfig cB (setNetworkConfig cA g)).encryption = some eB ∧
    (setNetworkConfig cB (setNetworkConfig cA g)).metrics = some mB ∧
    (∀ P, encryptData prims (setNetworkConfig cB (setNetworkConfig cA g)) P =
      encryptData prims (setNetworkConfig cB g) P) ∧
    (∀ s, decryptData prims (setNetworkConfig cB (setNetworkConfig cA g)) s =
      decryptData prims (setNetworkConfig cB g) s) ∧
    (∀ ts md, recordMetrics (setNetworkConfig cB (setNetworkConfig cA g)) ts md =
      recordMetrics (setNetworkConfig cB g) ts md) := by
  have h1 : (setNetworkConfig cB (setNetworkConfig cA g)).encryption = some eB := by
    simp [setNetworkConfig, hB]
  have h2 : (setNetworkConfig cB g).encryption = some eB := by
    simp [setNetworkConfig, hB]
  have h3 : (setNetworkConfig cB (setNetworkConfig cA g)).metrics = some mB := by
    simp [setNetworkConfig, hm]
  have h4 : (setNetworkConfig cB g).metrics = some mB := by
    simp [setNetworkConfig, hm]
  exact ⟨h1, h3,
    fun P => encryptData_congr prims (h1.trans h2.symm) P,
    fun s => decryptData_congr prims (h1.trans h2.symm) s,
    fun ts md => recordMetrics_congr (h3.trans h4.symm) ts md⟩

/-- C10 witness: after constructing A (encryption on, key "keyA") and then B
(encryption off), the singleton holds the whole encryption sub-object of B, and
`encryptData` behaves as under B alone — the key of A is gone. -/
theorem constructor_mutates_global_singleton_witness :
    (setNetworkConfig clientBUpdate (setNetworkConfig clientAUpdate initialGlobalConfig)).encryption =
      some { enabled := false } ∧
    encryptData stubPrims
        (setNetworkConfig clientBUpdate (setNetworkConfig clientAUpdate initialGlobalConfig))
        Json.null =
      encryptData stubPrims (setNetworkConfig clientBUpdate initialGlobalConfig) Json.null :=
  ⟨(constructor_mutates_global_singleton stubPrims initialGlobalConfig
      clientAUpdate clientBUpdate { enabled := false } { enabled := false }
      rfl rfl).1,
   (constructor_mutates_global_singleton stubPrims initialGlobalConfig
      clientAUpdate clientBUpdate { enabled := false } { enabled := false }
      rfl rfl).2.2.1 Json.null⟩

/-- C2 counterexample: a call under PROD whose 200 response carries a body
that fails JSON parsing after decryption emits ZERO metric records even though
metrics are fully enabled — the success interceptor rejects before
`recordMetrics`, and the rejection bypasses the error interceptor, so the
"exactly one record per call" claim fails on this call. -/
theorem metrics_zero_on_parse_failure :
    metricsEnabled prodEncryptedConfig = true ∧
    metricsLogToConsole prodEncryptedConfig = true ∧
    successParseFails stubPrims prodEncryptedConfig prodEncryptedConfig
      (.ok garbageOkResponse) = true ∧
    (runCall stubPrims prodEncryptedConfig prodEncryptedConfig sampleCall
      (.ok garbageOkResponse)).metricsRecorded.length = 0 := by
  refine ⟨rfl, rfl, ?_, ?_⟩ <;> decide

/-- C2 (amended): per call, when metrics are enabled exactly one MetricRecord
is built by the recorder (and written to the console sink exactly when
`logToConsole` is set), EXCEPT that a success response whose decrypted body
fails JSON parsing emits zero records; when metrics are disabled, zero records
are emitted in every case. -/
theorem metrics_per_call (prims : Prims) (icfg gcfg : NetworkConfig)
    (inp : CallInput) (tr : TransportResult) :
    (runCall prims icfg gcfg inp tr).metricsRecorded.length =
      (if metricsEnabled gcfg then
        if successParseFails prims icfg gcfg tr then 0 else 1
       else 0) ∧
    (runCall prims icfg gcfg inp tr).consoleLogs =
      (if metricsEnabled gcfg && metricsLogToConsole gcfg then
        if successParseFails prims icfg gcfg tr then 0 else 1
       else 0) := by
  cases tr with
  | ok resp =>
    unfold runCall successOutcome successParseFails successDecryptStep
    cases hp : isProd icfg with
    | false =>
      cases hm : metricsEnabled gcfg <;>
        cases hl : metricsLogToConsole gcfg <;>
          simp [hp, hm, hl, recordMetrics]
    | true =>
      cases hd : resp.data with
      | str s =>
        cases hs : (s != "") with
        | false =>
          cases hm : metricsEnabled gcfg <;>
            cases hl : metricsLogToConsole gcfg <;>
              simp [hp, hd, hs, hm, hl, recordMetrics]
        | true =>
          cases hj : prims.jsonParse (decryptData prims gcfg s) with
          | none =>
            simp [hp, hd, hs, hj]
          | some j =>
            cases hm : metricsEnabled gcfg <;>
              cases hl : metricsLogToConsole gcfg <;>
                simp [hp, hd, hs, hj, hm, hl, recordMetrics]
      | obj j =>
        cases hm : metricsEnabled gcfg <;>
          cases hl : metricsLogToConsole gcfg <;>
            simp [hp, hd, hm, hl, recordMetrics]
      | empty =>
        cases hm : metricsEnabled gcfg <;>
          cases hl : metricsLogToConsole gcfg <;>
            simp [hp, hd, hm, hl, recordMetrics]
  | err e =>
    unfold runCall errorOutcome successParseFails
    cases hm : metricsEnabled gcfg <;>
      cases hl : metricsLogToConsole gcfg <;>
        simp [hm, hl, recordMetrics]

/-- C3: per call, the 401 failure triggers the redirect to /enter-email
exactly once, a 5xx failure triggers the redirect to /generic-error exactly
once, and no other outcome (other statuses, transport errors with no
response, and every success response) triggers any redirect. -/
theorem redirect_policy (prims : Prims) (icfg gcfg : NetworkConfig)
    (inp : CallInput) (tr : TransportResult) :
    (runCall prims icfg gcfg inp tr).redirects =
      (match tr with
       | .ok _ => []
       | .err e =>
         match e.response with
         | none => []
         | some r =>
           if r.status = 401 then ["/enter-email"]
           else if 500 ≤ r.status ∧ r.status < 600 then ["/generic-error"]
           else []) := by
  cases tr with
  | ok resp =>
    unfold runCall successOutcome
    cases h : successDecryptStep prims icfg gcfg resp <;> simp [h]
  | err e =>
    unfold runCall errorOutcome
    cases hr : e.response with
    | none => simp [hr]
    | some r =>
      by_cases h4 : r.status = 401
      · simp [hr, h4]
      · by_cases h5 : 500 ≤ r.status ∧ r.status < 600
        · have h0 : r.status ≠ 0 := by omega
          simp [hr, h4, h5, h0]
        · simp [hr, h4, h5]
          omega

/-- When `successParseFails` holds, the decrypt step of the success
interceptor rejects with the parse error. -/
theorem successDecryptStep_of_parseFails (prims : Prims) (icfg gcfg : NetworkConfig)
    (resp : HttpResponse)
    (h : successParseFails prims icfg gcfg (.ok resp) = true) :
    successDecryptStep prims icfg gcfg resp = .error "Unexpected token in JSON" := by
  simp only [successParseFails] at h
  unfold successDecryptStep
  cases hd : resp.data with
  | str s =>
    rw [hd] at h
    simp only [Bool.and_eq_true] at h
    obtain ⟨h1, h2, h3⟩ := h
    cases hj : prims.jsonParse (decryptData prims gcfg s) with
    | none => simp [h1, h2, hj]
    | some j => rw [hj] at h3; simp at h3
  | obj j => rw [hd] at h; simp at h
  | empty => rw [hd] at h; simp at h

/-- C5: every failing call is delivered to the caller as the uniform failure
envelope, never as a raised exception (the model of each failure path is a
total function into ApiResponse): success is false, the error message is
populated, the status code is the response status (500 when no response is
available), and the error code is ERR_ followed by the status (ERR_UNKNOWN
when no status is available).  The three failure modes are the transport/HTTP
error path, the success-response decrypt/parse failure, and the synchronous
configuration throw in `graphql`. -/
theorem failure_envelope_uniform (prims : Prims) (icfg gcfg : NetworkConfig)
    (inp : CallInput) :
    (∀ e : HttpFailure, (∀ r, e.response = some r → r.status ≠ 0) →
      (runCall prims icfg gcfg inp (.err e)).envelope.success = false ∧
      ((runCall prims icfg gcfg inp (.err e)).envelope.error).isSome = true ∧
      (runCall prims icfg gcfg inp (.err e)).envelope.statusCode =
        some ((e.response.map (·.status)).getD 500) ∧
      (runCall prims icfg gcfg inp (.err e)).envelope.errorCode =
        some (match e.response with
              | some r => "ERR_" ++ toString r.status
              | none => "ERR_UNKNOWN")) ∧
    (∀ resp : HttpResponse, successParseFails prims icfg gcfg (.ok resp) = true →
      (runCall prims icfg gcfg inp (.ok resp)).envelope.success = false ∧
      ((runCall prims icfg gcfg inp (.ok resp)).envelope.error).isSome = true ∧
      (runCall prims icfg gcfg inp (.ok resp)).envelope.statusCode = some 500 ∧
      (runCall prims icfg gcfg inp (.ok resp)).envelope.errorCode = some "ERR_UNKNOWN") ∧
    (∀ (callBaseUrl : Option String) (tr : TransportResult),
      resolveGraphqlEndpoint callBaseUrl gcfg = "" →
      (graphqlCall prims icfg gcfg callBaseUrl inp tr).outcome.envelope.success = false ∧
      ((graphqlCall prims icfg gcfg callBaseUrl inp tr).outcome.envelope.error).isSome = true ∧
      (graphqlCall prims icfg gcfg callBaseUrl inp tr).outcome.envelope.statusCode = some 500 ∧
      (graphqlCall prims icfg gcfg callBaseUrl inp tr).outcome.envelope.errorCode =
        some "ERR_UNKNOWN") := by
  refine ⟨?_, ?_, ?_⟩
  · intro e hnz
    unfold runCall errorOutcome catchEnvelope
    cases hr : e.response with
    | none => simp [hr]
    | some r =>
      have h0 : r.status ≠ 0 := hnz r hr
      simp [hr, h0]
  · intro resp hfail
    have hstep := successDecryptStep_of_parseFails prims icfg gcfg resp hfail
    simp only [runCall, successOutcome, hstep]
    simp [catchEnvelope]
  · intro callBaseUrl tr he
    unfold graphqlCall
    rw [he]
    simp [catchEnvelope]

/-- C5 witness: the uniform envelope of a 500 HTTP failure, evaluated
concretely. -/
theorem failure_envelope_uniform_witness :
    (runCall stubPrims prodEncryptedConfig prodEncryptedConfig sampleCall
      (.err garbageServerError)).envelope.success = false ∧
    ((runCall stubPrims prodEncryptedConfig prodEncryptedConfig sampleCall
      (.err garbageServerError)).envelope.error).isSome = true ∧
    (runCall stubPrims prodEncryptedConfig prodEncryptedConfig sampleCall
      (.err garbageServerError)).envelope.statusCode = some 500 ∧
    (runCall stubPrims prodEncryptedConfig prodEncryptedConfig sampleCall
      (.err garbageServerError)).envelope.errorCode = some "ERR_500" :=
  (failure_envelope_uniform stubPrims prodEncryptedConfig prodEncryptedConfig
    sampleCall).1 garbageServerError
    (fun r hr => by cases hr; decide)

/-- C6: asymmetric handling of a decrypted body that is not valid JSON — on
the success path the parse error aborts the call as a failure envelope with no
data (propagated, not swallowed); on the error path the parse failure is only
logged: the original undecrypted body stays in `error.response.data`, the
metric record is still emitted, the redirect policy still runs, and the
envelope is still built from the original error. -/
theorem parse_failure_asymmetry (prims : Prims) (icfg gcfg : NetworkConfig)
    (inp : CallInput) :
    (∀ resp : HttpResponse, successParseFails prims icfg gcfg (.ok resp) = true →
      (runCall prims icfg gcfg inp (.ok resp)).envelope.success = false ∧
      (runCall prims icfg gcfg inp (.ok resp)).envelope.data = none) ∧
    (∀ (e : HttpFailure) (r : HttpResponse) (s : String),
      isProd icfg = true → e.response = some r → r.data = Body.str s → s ≠ "" →
      e.hasConfig = true →
      prims.jsonParse (decryptData prims gcfg s) = none →
      (runCall prims icfg gcfg inp (.err e)).errorBodyAfter = some (Body.str s) ∧
      (runCall prims icfg gcfg inp (.err e)).metricsRecorded.length =
        (if metricsEnabled gcfg then 1 else 0) ∧
      (runCall prims icfg gcfg inp (.err e)).envelope =
        catchEnvelope e.message (some r.status) ∧
      (runCall prims icfg gcfg inp (.err e)).redirects =
        (if r.status = 401 then ["/enter-email"]
         else if 500 ≤ r.status ∧ r.status < 600 then ["/generic-error"]
         else [])) := by
  constructor
  · intro resp hfail
    have hstep := successDecryptStep_of_parseFails prims icfg gcfg resp hfail
    simp only [runCall, successOutcome, hstep]
    simp [catchEnvelope]
  · intro e r s hprod hr hd hs hcfg hparse
    have hs2 : (s != "") = true := bne_iff_ne.mpr hs
    unfold runCall errorOutcome
    refine ⟨?_, ?_, ?_, ?_⟩
    · simp [hr, hd, hprod, hcfg, Body.truthy, hs2, hparse]
    · cases hm : metricsEnabled gcfg <;> simp [recordMetrics, hm]
    · simp [hr]
    · by_cases h4 : r.status = 401
      · simp [hr, h4]
      · by_cases h5 : 500 ≤ r.status ∧ r.status < 600
        · have h0 : r.status ≠ 0 := by omega
          simp [hr, h4, h5, h0]
        · simp [hr, h4, h5]
          omega

/-- C6 witness: the asymmetry evaluated concretely — the parse-failing 200
response becomes a failure envelope, while on the parse-failing 500 error the
original body string is left in place. -/
theorem parse_failure_asymmetry_witness :
    (runCall stubPrims prodEncryptedConfig prodEncryptedConfig sampleCall
      (.ok garbageOkResponse)).envelope.success = false ∧
    (runCall stubPrims prodEncryptedConfig prodEncryptedConfig sampleCall
      (.err garbageServerError)).errorBodyAfter = some (Body.str "garbage") :=
  ⟨((parse_failure_asymmetry stubPrims prodEncryptedConfig prodEncryptedConfig
      sampleCall).1 garbageOkResponse (by decide)).1,
   ((parse_failure_asymmetry stubPrims prodEncryptedConfig prodEncryptedConfig
      sampleCall).2 garbageServerError
      { status := 500, data := Body.str "garbage" } "garbage"
      rfl rfl rfl (by decide) rfl rfl).1⟩

/-- C7: a graphql call with no endpoint in the per-call config and none in
the global config returns the configuration-error failure envelope, records no
metrics, and never reaches the transport. -/
theorem graphql_missing_endpoint (prims : Prims) (icfg gcfg : NetworkConfig)
    (callBaseUrl : Option String) (inp : CallInput) (tr : TransportResult)
    (h1 : callBaseUrl.getD "" = "")
    (h2 : (gcfg.graphql.bind (·.endpoint)).getD "" = "") :
    (graphqlCall prims icfg gcfg callBaseUrl inp tr).transportAttempted = false ∧
    (graphqlCall prims icfg gcfg callBaseUrl inp tr).outcome.envelope.success = false ∧
    (graphqlCall prims icfg gcfg callBaseUrl inp tr).outcome.envelope.error =
      some "GraphQL endpoint is not configured" ∧
    (graphqlCall prims icfg gcfg callBaseUrl inp tr).outcome.metricsRecorded = [] := by
  have he : resolveGraphqlEndpoint callBaseUrl gcfg = "" := by
    unfold resolveGraphqlEndpoint
    simp [h1, h2]
  unfold graphqlCall
  rw [he]
  simp [catchEnvelope]

/-- C7 witness: no per-call baseUrl and no global graphql endpoint, evaluated
concretely. -/
theorem graphql_missing_endpoint_witness :
    (graphqlCall stubPrims initialGlobalConfig initialGlobalConfig none sampleCall
      (.ok garbageOkResponse)).transportAttempted = false ∧
    (graphqlCall stubPrims initialGlobalConfig initialGlobalConfig none sampleCall
      (.ok garbageOkResponse)).outcome.envelope.error =
      some "GraphQL endpoint is not configured" :=
  ⟨(graphql_missing_endpoint stubPrims initialGlobalConfig initialGlobalConfig
      none sampleCall (.ok garbageOkResponse) rfl rfl).1,
   (graphql_missing_endpoint stubPrims initialGlobalConfig initialGlobalConfig
      none sampleCall (.ok garbageOkResponse) rfl rfl).2.2.1⟩

/-- C9 counterexample: interpolating the (falsy) number 0 between fragments
"a" and "b" yields "ab", not the concatenation "a0b" of fragments and value —
the `|| ""` in the source silently drops every falsy interpolated value. -/
theorem gql_drops_falsy :
    gql ["a", "b"] [JsVal.num 0] = "ab" ∧
    gqlInterleaved ["a", "b"] [JsVal.num 0] = "a0b" ∧
    gql ["a", "b"] [JsVal.num 0] ≠ gqlInterleaved ["a", "b"] [JsVal.num 0] := by
  refine ⟨?_, ?_, ?_⟩ <;> decide

/-- Accumulator characterization of the reduce in `gql`. -/
theorem gqlGo_eq_falsyDropped (strings : List String) (values : List JsVal) :
    ∀ (i : Nat) (acc : String),
      gqlGo values i acc strings = acc ++ gqlFalsyDropped strings (values.drop i) := by
  induction strings with
  | nil =>
    intro i acc
    simp [gqlGo, gqlFalsyDropped]
  | cons s rest ih =>
    intro i acc
    rw [gqlGo, ih (i + 1)]
    cases hd : values.drop i with
    | nil =>
      have hv : valueAt values i = JsVal.undefinedVal := by
        unfold valueAt
        rw [← List.head?_drop, hd]
        rfl
      have hd2 : values.drop (i + 1) = [] := by
        rw [← List.tail_drop, hd]
        rfl
      rw [hv, hd2, gqlFalsyDropped]
      simp [jsOrEmptyStr, JsVal.truthy, String.append_assoc]
    | cons v tl =>
      have hv : valueAt values i = v := by
        unfold valueAt
        rw [← List.head?_drop, hd]
        rfl
      have hd2 : values.drop (i + 1) = tl := by
        rw [← List.tail_drop, hd]
        rfl
      rw [hv, hd2, gqlFalsyDropped]
      simp [String.append_assoc]

/-- C9 (amended): `gql` concatenates the template fragments with the string
renderings of the interpolated values in order, with no validation or parsing,
EXCEPT that a falsy interpolated value (false, 0, the empty string, null,
undefined) contributes the empty string instead of its rendering. -/
theorem gql_concatenates_with_falsy_dropped (strings : List String)
    (values : List JsVal) :
    gql strings values = gqlFalsyDropped strings values := by
  rw [gql, gqlGo_eq_falsyDropped strings values 0 ""]
  simp

end WebLatticeModel
